import Mathlib

/-!
Verification of the asynchronous-state reconciliation subsystem of
`ts-remote-data-react` (React hooks/components over the `RemoteData` type).

The TypeScript sources are shallowly embedded as follows:

* `RemoteData` — the four-variant async-result value. In TypeScript it is the
  untagged union `T | NOT_ASKED | LOADING | Failure`; here its universe of
  values is modelled by one inductive whose `ready` constructor stands for any
  plain (non-sentinel, non-failure) JavaScript value, so a promise can resolve
  with a sentinel or a failure value and `usePromise` stores whatever it gets.
* `reconcile` — the body of `useRemoteLatest`'s slot update (the `if` in
  `useRemoteLatest.ts` / `usePromiseState.ts` lines 21-27 resp. 81-87).
* `PromiseState`, `setPromise`, `onSettle` — the `usePromise` hook: its
  `useState` data, the `useEffect` keyed on `[promise]`, and the
  `isStillRelevant` guard on settlement.
* `RegistryState`, `regStep`, `deregStep` — the `registrar` memoised inside
  the `ActivityIndicator` component (`ActivityIndicator.tsx` lines 83-97).
* `TimeoutState`, `timeoutRender`, `timeoutFire` — the `useTimeout` hook: the
  `currentCallback` ref updated by the effect keyed on `[callback]`, and the
  `setTimeout`/`clearTimeout` effect keyed on `[delay]`. React only re-runs an
  effect when its dependency array changes (`Object.is` comparison), which the
  machines model by storing the previously committed dependency values.
* `gateRender`/`gateRun` — the `RemoteSuspense` component, including its
  embedded `useTimeout` for the loading debounce.
* `aiBody`/`aiRun`, `latestRender`/`latestRun` — the `useActivityIndicator`
  hook and its composition with `useRemoteLatest`.

Time is a natural-number clock; an event trace is a list of renders stamped
with the time at which they happen, and a pending `setTimeout` whose deadline
has passed fires (with a re-render) before the next trace event is processed.
-/

namespace TsRemoteDataReact

/-- The `RemoteData` value universe: `NOT_ASKED` and `LOADING` are the two
sentinels, `failure e` is a `Failure` object carrying `e`, and `ready v` is a
plain value `v` (any JavaScript value that is neither sentinel nor failure). -/
inductive RemoteData where
  | NOT_ASKED
  | LOADING
  | failure (error : Nat)
  | ready (v : Nat)
deriving DecidableEq, Repr

/-- Embeds `RemoteData.isReady`: true on plain values only. -/
def isReady : RemoteData → Bool
  | .ready _ => true
  | _ => false

/-- Embeds `RemoteData.isFailure`: true on failure objects only. -/
def isFailure : RemoteData → Bool
  | .failure _ => true
  | _ => false

/-- One evaluation pass of `useRemoteLatest`'s slot update: the stored
`shown.current` is replaced by the incoming `data` exactly when
`isReady data || isFailure data || !isReady shown`. -/
def reconcile (shown data : RemoteData) : RemoteData :=
  if isReady data || isFailure data || !isReady shown then data else shown

/-! ## usePromise -/

/-- Settlement of a promise: it either resolves with a JavaScript value
(viewed in the `RemoteData` universe, since the union is untagged) or rejects
with an error. -/
inductive Settlement where
  | resolved (v : RemoteData)
  | rejected (e : Nat)
deriving DecidableEq, Repr

/-- What `promise.catch(RemoteData.failWith).then(result => setData(result))`
stores: a resolution is stored verbatim, a rejection is first mapped by
`RemoteData.failWith` to a failure object. -/
def settleData : Settlement → RemoteData
  | .resolved v => v
  | .rejected e => .failure e

/-- State of one `usePromise` consumer instance: the `useState` data and the
identity of the promise whose settlement is still relevant (`none` when no
promise is being watched). Promise identities are opaque naturals. -/
structure PromiseState where
  data : RemoteData
  watched : Option Nat
deriving DecidableEq, Repr

/-- A pristine `usePromise` instance before any promise was supplied. -/
def PromiseState.initial : PromiseState := ⟨.NOT_ASKED, none⟩

/-- Supplying a promise (or `undefined`) to `usePromise`. The effect is keyed
on `[promise]`, so an unchanged identity does nothing; a new identity detaches
from the old promise (flipping its `isStillRelevant` to false) and outputs
`LOADING`, and `undefined` outputs `NOT_ASKED`. -/
def setPromise (p : Option Nat) (s : PromiseState) : PromiseState :=
  if p = s.watched then s
  else
    match p with
    | none => ⟨.NOT_ASKED, none⟩
    | some q => ⟨.LOADING, some q⟩

/-- Settlement of promise `p` arriving at the instance: the handler runs
`if (isStillRelevant) setData(result)`, so it mutates the state only when `p`
is still the watched promise. -/
def onSettle (p : Nat) (st : Settlement) (s : PromiseState) : PromiseState :=
  if s.watched = some p then { s with data := settleData st } else s

/-! ## ActivityIndicator registry -/

/-- State owned by one `ActivityIndicator` component: the `registered` ref
(a set of token ids), the `isIndicating` state, and the `uniqueId` counter
used to mint fresh tokens. -/
structure RegistryState where
  registered : Finset Nat
  isIndicating : Bool
  uid : Nat
deriving DecidableEq

/-- A freshly mounted `ActivityIndicator`. -/
def RegistryState.initial : RegistryState := ⟨∅, false, 0⟩

/-- The body of `registrar.register()`: mint `id = uniqueId++`, record whether
the set was empty, add the token, and raise the aggregate if it was empty. -/
def regStep (s : RegistryState) : RegistryState :=
  { registered := insert s.uid s.registered
    isIndicating := if s.registered = ∅ then true else s.isIndicating
    uid := s.uid + 1 }

/-- The deregister closure returned by `register()`, applied to its captured
token `id`: delete the token, and lower the aggregate if the set is empty. -/
def deregStep (id : Nat) (s : RegistryState) : RegistryState :=
  let r := s.registered.erase id
  { s with registered := r
           isIndicating := if r = ∅ then false else s.isIndicating }

/-- A serial operation against one registry: a `register()` call or a call of
the deregister closure capturing token `id`. -/
inductive RegOp where
  | reg
  | dereg (id : Nat)
deriving DecidableEq, Repr

/-- Applies one registry operation. -/
def applyOp (s : RegistryState) : RegOp → RegistryState
  | .reg => regStep s
  | .dereg id => deregStep id s

/-- Runs a serial sequence of operations from the freshly mounted registry. -/
def runOps (ops : List RegOp) : RegistryState :=
  ops.foldl applyOp RegistryState.initial

/-! ## useTimeout -/

/-- The `delay` argument of `useTimeout`: a number of milliseconds, `null`, or
`false` (the latter two are distinct values for the dependency comparison, but
both fail `typeof delay === 'number'`). -/
inductive Delay where
  | num (n : Nat)
  | nullv
  | falsev
deriving DecidableEq, Repr

/-- State of one `useTimeout` instance: the `currentCallback` ref (callback
identities are opaque naturals), the previously committed dependency values of
the two effects, and the deadline of the pending `setTimeout`, if any. -/
structure TimeoutState where
  cbRef : Nat
  prevCb : Option Nat
  prevDelay : Option Delay
  deadline : Option Nat
deriving DecidableEq, Repr

/-- A `useTimeout` instance before its first render: no effect has committed
yet and no timer is pending. -/
def TimeoutState.initial : TimeoutState := ⟨0, none, none, none⟩

/-- One render of `useTimeout(callback, delay)` at time `t`. The first effect
(deps `[callback]`) updates the `currentCallback` ref when the callback
identity changed; the second effect (deps `[delay]`) runs only when the delay
value changed, in which case its cleanup clears any pending timer and, when
the new delay is a number `n`, a fresh timer is scheduled for `t + n`. -/
def timeoutRender (t : Nat) (cb : Nat) (d : Delay) (s : TimeoutState) :
    TimeoutState :=
  let s1 :=
    if some cb ≠ s.prevCb then { s with cbRef := cb, prevCb := some cb } else s
  if some d ≠ s1.prevDelay then
    { s1 with
      prevDelay := some d
      deadline := match d with | .num n => some (t + n) | _ => none }
  else s1

/-- The pending timer firing: it fires at its deadline, invoking
`currentCallback.current` (the fire function dereferences the ref at fire
time), and is then spent. Returns the new state and, when a timer was
pending, the pair (fire time, callback invoked). -/
def timeoutFire (s : TimeoutState) : TimeoutState × Option (Nat × Nat) :=
  match s.deadline with
  | some dl => ({ s with deadline := none }, some (dl, s.cbRef))
  | none => (s, none)

/-! ## RemoteSuspense -/

/-- The `failureFallback` prop of `RemoteSuspense`: either a static React node
(nodes are opaque naturals) or a function from the carried error to a node.
The code distinguishes them by `typeof failureFallback === 'function' &&
!isElement(failureFallback)`; a React element is never a function, so the two
constructors partition exactly as that test does. -/
inductive FailureFallback where
  | node (n : Nat)
  | func (f : Nat → Nat)

/-- Static configuration of one `RemoteSuspense` instance. -/
structure GateConfig where
  loadingTimeout : Nat
  loadingFallback : Nat
  failureFallback : FailureFallback
  children : Nat → Nat

/-- The rendered output of one `RemoteSuspense` evaluation, tagged by the
branch of the component body that produced it: the empty fragment, the
loading fallback, the failure view, or the content producer's result. -/
inductive GateOut where
  | empty
  | loading (n : Nat)
  | failed (n : Nat)
  | content (n : Nat)
deriving DecidableEq, Repr

/-- True exactly on outputs produced by the loading-view branch. -/
def isLoadingOut : GateOut → Bool
  | .loading _ => true
  | _ => false

/-- State of one `RemoteSuspense` instance: the `showLoading` state, the
embedded `useTimeout`'s committed delay dependency and pending deadline (its
callback is always `() => setShowLoading(true)`, so the callback ref is not
tracked), and the `data` prop of the last committed render (the props a
timer-fire re-render sees). -/
structure GateState where
  showLoading : Bool
  prevDelay : Option Delay
  deadline : Option Nat
  lastData : RemoteData
deriving DecidableEq, Repr

/-- A `RemoteSuspense` instance before its first render. -/
def GateState.initial : GateState := ⟨false, none, none, .NOT_ASKED⟩

/-- One render of `RemoteSuspense` at time `t` with prop `data = d`, starting
from incoming `showLoading` value `sl` (the committed value, except that a
timer fire re-renders with `true`). The body computes
`isLoading = (data === RemoteData.LOADING)`, passes
`isLoading && loadingTimeout` to `useTimeout`, synchronously clears
`showLoading` when not loading, and then dispatches on `data`. -/
def gateBody (cfg : GateConfig) (t : Nat) (d : RemoteData) (s : GateState)
    (sl : Bool) : GateState × GateOut :=
  let isLoading : Bool := d = RemoteData.LOADING
  let show1 := if !isLoading && sl then false else sl
  let out : GateOut :=
    match d with
    | .NOT_ASKED => .empty
    | .LOADING => if show1 then .loading cfg.loadingFallback else .empty
    | .failure e =>
      .failed (match cfg.failureFallback with | .func f => f e | .node n => n)
    | .ready v => .content (cfg.children v)
  let dep : Delay := if isLoading then .num cfg.loadingTimeout else .falsev
  let s2 :=
    if some dep ≠ s.prevDelay then
      { showLoading := show1
        prevDelay := some dep
        deadline := match dep with | .num n => some (t + n) | _ => none
        lastData := d }
    else { s with showLoading := show1, lastData := d }
  (s2, out)

/-- A render of `RemoteSuspense` driven by new props. -/
def gateRender (cfg : GateConfig) (t : Nat) (d : RemoteData) (s : GateState) :
    GateState × GateOut :=
  gateBody cfg t d s s.showLoading

/-- The loading-debounce timer firing: `setShowLoading(true)` runs at the
deadline and the component re-renders, at the deadline, with the last
committed props. -/
def gateFire (cfg : GateConfig) (s : GateState) : GateState × List GateOut :=
  match s.deadline with
  | some dl =>
    let r := gateBody cfg dl s.lastData { s with deadline := none } true
    (r.1, [r.2])
  | none => (s, [])

/-- Processing one trace event `(t, d)`: a pending timer whose deadline has
passed fires first (with its re-render), then the render for the event. -/
def gateStep (cfg : GateConfig) (s : GateState) (ev : Nat × RemoteData) :
    GateState × List GateOut :=
  let fireNow : Bool :=
    match s.deadline with | some dl => decide (dl ≤ ev.1) | none => false
  let p1 := if fireNow then gateFire cfg s else (s, [])
  let r := gateRender cfg ev.1 ev.2 p1.1
  (r.1, p1.2 ++ [r.2])

/-- Runs a whole event trace, collecting every rendered output in order. -/
def gateRun (cfg : GateConfig) (s : GateState) :
    List (Nat × RemoteData) → GateState × List GateOut
  | [] => (s, [])
  | ev :: rest =>
    let p := gateStep cfg s ev
    let q := gateRun cfg p.1 rest
    (q.1, p.2 ++ q.2)

/-- The hypothesis of the gate debounce claim, as a predicate on traces: keyed
by the deadline of the currently armed loading timer (if any), it demands that
every event during a `LOADING` stretch — including the event that ends it —
arrive strictly before the stretch's deadline (entry time plus the timeout),
and that the trace not end while a stretch is still open. This says exactly
that the data leaves `LOADING` before `loadingTimeout` elapses continuously. -/
def okEvents (timeout : Nat) : Option Nat → List (Nat × RemoteData) → Bool
  | dl?, [] => dl?.isNone
  | dl?, (t, d) :: rest =>
    match dl? with
    | some dl =>
      decide (t < dl) &&
        (if d = RemoteData.LOADING then okEvents timeout (some dl) rest
         else okEvents timeout none rest)
    | none =>
      if d = RemoteData.LOADING then okEvents timeout (some (t + timeout)) rest
      else okEvents timeout none rest

/-! ## useActivityIndicator and its composition with useRemoteLatest

A registry event is a pair (time, `true` for a `register()` call, `false` for
a call of the deregister closure), as seen by the ambient
`ActivityIndicatorContext` registrar. -/

/-- State of one `useActivityIndicator` instance: the `show` state, whether
the effect keyed on `[context, show]` currently holds a live registration,
the embedded `useTimeout`'s committed delay dependency and pending deadline
(its callback is always `() => setShow(true)`), and the `hasActivity` value
of the last committed render. -/
structure AIState where
  showFlag : Bool
  registered : Bool
  prevDelay : Option Delay
  deadline : Option Nat
  lastH : Bool
deriving DecidableEq, Repr

/-- A `useActivityIndicator` instance before its first render. -/
def AIState.initial : AIState := ⟨false, false, none, none, false⟩

/-- One render of `useActivityIndicator(hasActivity, T)` at time `t`,
starting from incoming `show` value `sf` (the committed value, except that a
timer fire re-renders with `true`). The body passes `hasActivity && T` to
`useTimeout`, synchronously clears `show` when `hasActivity` is false, and
the effect keyed on `[context, show]` — compared against the previously
committed `show` — deregisters its old registration (if any) and registers
anew when the new `show` is true. -/
def aiBody (T t : Nat) (h : Bool) (s : AIState) (sf : Bool) :
    AIState × List (Nat × Bool) :=
  let show1 := if !h && sf then false else sf
  let dep : Delay := if h then .num T else .falsev
  let pd :=
    if some dep ≠ s.prevDelay then
      (some dep, match dep with | .num n => some (t + n) | _ => none)
    else (s.prevDelay, s.deadline)
  let re : Bool × List (Nat × Bool) :=
    if show1 = s.showFlag then (s.registered, [])
    else
      (show1,
        (if s.registered then [(t, false)] else []) ++
          (if show1 then [(t, true)] else []))
  (⟨show1, re.1, pd.1, pd.2, h⟩, re.2)

/-- A render of `useActivityIndicator` driven by a new `hasActivity` input. -/
def aiRender (T t : Nat) (h : Bool) (s : AIState) :
    AIState × List (Nat × Bool) :=
  aiBody T t h s s.showFlag

/-- The debounce timer firing: `setShow(true)` runs at the deadline and the
hook re-renders, at the deadline, with the last committed `hasActivity`. -/
def aiFire (T : Nat) (s : AIState) : AIState × List (Nat × Bool) :=
  match s.deadline with
  | some dl => aiBody T dl s.lastH { s with deadline := none } true
  | none => (s, [])

/-- Processing one trace event `(t, hasActivity)`: a pending timer whose
deadline has passed fires first, then the render for the event. -/
def aiStep (T : Nat) (s : AIState) (ev : Nat × Bool) :
    AIState × List (Nat × Bool) :=
  let fireNow : Bool :=
    match s.deadline with | some dl => decide (dl ≤ ev.1) | none => false
  let p1 := if fireNow then aiFire T s else (s, [])
  let r := aiRender T ev.1 ev.2 p1.1
  (r.1, p1.2 ++ r.2)

/-- Runs a whole `hasActivity` trace, collecting all registry events. -/
def aiRun (T : Nat) (s : AIState) :
    List (Nat × Bool) → AIState × List (Nat × Bool)
  | [] => (s, [])
  | ev :: rest =>
    let p := aiStep T s ev
    let q := aiRun T p.1 rest
    (q.1, p.2 ++ q.2)

/-- The hypothesis of the no-early-registration claim: every stretch of
consecutive `hasActivity = true` events is ended, by an event with
`hasActivity = false`, strictly before the stretch's deadline (entry time
plus the threshold), and the trace does not end inside a stretch. -/
def aiOk (T : Nat) : Option Nat → List (Nat × Bool) → Bool
  | dl?, [] => dl?.isNone
  | dl?, (t, h) :: rest =>
    match dl? with
    | some dl =>
      decide (t < dl) &&
        (if h then aiOk T (some dl) rest else aiOk T none rest)
    | none =>
      if h then aiOk T (some (t + T)) rest else aiOk T none rest

/-- The options argument of `useRemoteLatest`: `hideIndicator` defaults to
false (absent), `indicatorTimeout` is `none` when absent (the
`useActivityIndicator` default of 250 then applies). -/
structure LatestOpts where
  hideIndicator : Bool
  indicatorTimeout : Option Nat
deriving DecidableEq, Repr

/-- State of one `useRemoteLatest` instance: the `shown` ref (absent before
the first render, when `useRef(data)` seeds it) and the state of the embedded
`useActivityIndicator`. -/
structure LatestState where
  shown : Option RemoteData
  ai : AIState
deriving DecidableEq, Repr

/-- A `useRemoteLatest` instance before its first render. -/
def LatestState.initial : LatestState := ⟨none, AIState.initial⟩

/-- One render of `useRemoteLatest(data, options)` at time `t`: the slot is
reconciled with the incoming data, `isShowingOld` is whether the exposed value
differs from the incoming one, and `isShowingOld && !options.hideIndicator`
is fed to `useActivityIndicator` with threshold
`options.indicatorTimeout` (250 when absent). Returns the new state, the
exposed value, and the registry events emitted. -/
def latestRender (opts : LatestOpts) (t : Nat) (data : RemoteData)
    (s : LatestState) : LatestState × RemoteData × List (Nat × Bool) :=
  let shown0 := s.shown.getD data
  let shown1 := reconcile shown0 data
  let isShowingOld : Bool := shown1 ≠ data
  let h := isShowingOld && !opts.hideIndicator
  let T := opts.indicatorTimeout.getD 250
  let r := aiRender T t h s.ai
  (⟨some shown1, r.1⟩, shown1, r.2)

/-- Processing one trace event `(t, data)` of the composed hook: a pending
indicator timer whose deadline has passed fires first (a re-render in which
the slot and `hasActivity` are unchanged), then the render for the event.
Returns the new state, the exposed value of the event's render, and the
registry events. -/
def latestStep (opts : LatestOpts) (s : LatestState) (ev : Nat × RemoteData) :
    LatestState × RemoteData × List (Nat × Bool) :=
  let T := opts.indicatorTimeout.getD 250
  let fireNow : Bool :=
    match s.ai.deadline with | some dl => decide (dl ≤ ev.1) | none => false
  let p1 := if fireNow then aiFire T s.ai else (s.ai, [])
  let r := latestRender opts ev.1 ev.2 ⟨s.shown, p1.1⟩
  (r.1, r.2.1, p1.2 ++ r.2.2)

/-- Runs a whole data trace through `useRemoteLatest`, collecting the exposed
value at each event and all registry events. -/
def latestRun (opts : LatestOpts) (s : LatestState) :
    List (Nat × RemoteData) → LatestState × List RemoteData × List (Nat × Bool)
  | [] => (s, [], [])
  | ev :: rest =>
    let p := latestStep opts s ev
    let q := latestRun opts p.1 rest
    (q.1, p.2.1 :: q.2.1, p.2.2 ++ q.2.2)

/-! ## Helper lemmas -/

/-- Folding `reconcile` over unsettled inputs from a ready slot is inert. -/
theorem foldl_reconcile_ready : ∀ (ds : List RemoteData) (v : Nat),
    (∀ x ∈ ds, x = RemoteData.NOT_ASKED ∨ x = RemoteData.LOADING) →
    ds.foldl reconcile (.ready v) = .ready v
  | [], _, _ => rfl
  | x :: xs, v, hall => by
    have hx := hall x (by simp)
    have hre : reconcile (.ready v) x = .ready v := by
      rcases hx with rfl | rfl <;> simp [reconcile, isReady, isFailure]
    rw [List.foldl_cons, hre]
    exact foldl_reconcile_ready xs v fun y hy => hall y (by simp [hy])

/-- The registry invariant: the aggregate is raised iff the set is inhabited. -/
def regInv (s : RegistryState) : Prop :=
  s.isIndicating = true ↔ s.registered ≠ ∅

/-- Each registry operation preserves the aggregate invariant. -/
theorem regInv_applyOp (s : RegistryState) (op : RegOp) (h : regInv s) :
    regInv (applyOp s op) := by
  cases op with
  | reg =>
    have hne : insert s.uid s.registered ≠ ∅ := Finset.insert_ne_empty _ _
    by_cases he : s.registered = ∅
    · simp [applyOp, regStep, regInv, he, hne]
    · simp only [applyOp, regStep, regInv, if_neg he]
      exact ⟨fun _ => hne, fun _ => h.mpr he⟩
  | dereg id =>
    by_cases he : s.registered.erase id = ∅
    · simp [applyOp, deregStep, regInv, he]
    · have hreg : s.registered ≠ ∅ := fun hc => he (by rw [hc]; exact Finset.erase_empty id)
      simp only [applyOp, deregStep, regInv, if_neg he]
      exact ⟨fun _ => he, fun _ => h.mpr hreg⟩

/-- Any serial fold of registry operations preserves the invariant. -/
theorem regInv_foldl : ∀ (ops : List RegOp) (s : RegistryState), regInv s →
    regInv (ops.foldl applyOp s)
  | [], _, h => h
  | op :: rest, s, h => by
    rw [List.foldl_cons]
    exact regInv_foldl rest _ (regInv_applyOp s op h)

/-- After `n` `register()` calls on a fresh registry, the token set is
`{0, …, n-1}` and the id counter is `n`. -/
theorem regStep_iterate (n : Nat) :
    (regStep^[n] RegistryState.initial).registered = Finset.range n ∧
    (regStep^[n] RegistryState.initial).uid = n := by
  induction n with
  | zero => exact ⟨rfl, rfl⟩
  | succ m ih =>
    rw [Function.iterate_succ_apply']
    refine ⟨?_, ?_⟩
    · rw [regStep, ih.1, ih.2, Finset.range_succ]
    · rw [regStep, ih.2]

/-- Deregistering a list of tokens removes exactly those tokens. -/
theorem foldl_dereg_registered : ∀ (l : List Nat) (s : RegistryState),
    (l.foldl (fun s id => deregStep id s) s).registered =
      s.registered \ l.toFinset
  | [], s => by simp
  | x :: xs, s => by
    rw [List.foldl_cons, foldl_dereg_registered xs (deregStep x s)]
    have hr : (deregStep x s).registered = s.registered.erase x := rfl
    rw [hr]
    ext y
    simp only [Finset.mem_sdiff, Finset.mem_erase, List.toFinset_cons,
      Finset.mem_insert, List.mem_toFinset]
    tauto

/-- Iterated registration preserves the aggregate invariant. -/
theorem regInv_iterate (n : Nat) : regInv (regStep^[n] RegistryState.initial) := by
  induction n with
  | zero => simp [regInv, RegistryState.initial]
  | succ m ih =>
    rw [Function.iterate_succ_apply']
    exact regInv_applyOp _ .reg ih

/-- A fold of deregistrations is a fold of `dereg` operations. -/
theorem foldl_dereg_eq_ops : ∀ (l : List Nat) (s : RegistryState),
    l.foldl (fun s id => deregStep id s) s = (l.map RegOp.dereg).foldl applyOp s
  | [], _ => rfl
  | x :: xs, s => by
    rw [List.foldl_cons, List.map_cons, List.foldl_cons]
    exact foldl_dereg_eq_ops xs _

/-- Deregistering a list of tokens preserves the aggregate invariant. -/
theorem regInv_foldl_dereg (l : List Nat) (s : RegistryState) (h : regInv s) :
    regInv (l.foldl (fun s id => deregStep id s) s) := by
  rw [foldl_dereg_eq_ops]
  exact regInv_foldl _ s h

/-- Removing all but the top token from `{0, …, n-1}` leaves the top token. -/
theorem range_sdiff_pred (n : Nat) (hn : 0 < n) :
    Finset.range n \ Finset.range (n - 1) = {n - 1} := by
  ext x
  simp only [Finset.mem_sdiff, Finset.mem_range, Finset.mem_singleton]
  omega

/-- The finset of the list `[0, …, m-1]` is `Finset.range m`. -/
theorem toFinset_list_range (m : Nat) :
    (List.range m).toFinset = Finset.range m := by
  ext x
  simp [List.mem_toFinset, List.mem_range, Finset.mem_range]

/-- The output of a `RemoteSuspense` render whose loading flag is down. -/
def quietOut (cfg : GateConfig) : RemoteData → GateOut
  | .NOT_ASKED => .empty
  | .LOADING => .empty
  | .failure e =>
    .failed (match cfg.failureFallback with | .func f => f e | .node n => n)
  | .ready v => .content (cfg.children v)

/-- A down-flag render never produces the loading view. -/
theorem quietOut_not_loading (cfg : GateConfig) (d : RemoteData) :
    isLoadingOut (quietOut cfg d) = false := by
  cases d <;> rfl

/-- Down-flag render on `LOADING` with the timer already armed: the effect
dependency is unchanged, so the timer is untouched. -/
theorem gateBody_loading_keep (cfg : GateConfig) (t : Nat) (s : GateState)
    (hpd : s.prevDelay = some (.num cfg.loadingTimeout)) :
    gateBody cfg t .LOADING s false
      = ({ s with showLoading := false, lastData := .LOADING }, .empty) := by
  simp [gateBody, hpd]

/-- Down-flag render entering `LOADING`: the effect dependency changed, so a
timer is armed for the render time plus the timeout. -/
theorem gateBody_loading_arm (cfg : GateConfig) (t : Nat) (s : GateState)
    (hpd : ¬ s.prevDelay = some (.num cfg.loadingTimeout)) :
    gateBody cfg t .LOADING s false
      = (⟨false, some (.num cfg.loadingTimeout),
          some (t + cfg.loadingTimeout), .LOADING⟩, .empty) := by
  have h2 : ¬ some (Delay.num cfg.loadingTimeout) = s.prevDelay :=
    fun h => hpd h.symm
  simp [gateBody, h2]

/-- Down-flag render away from `LOADING`, dependency changed: any pending
timer is cleared. -/
theorem gateBody_other_clear (cfg : GateConfig) (t : Nat) (d : RemoteData)
    (s : GateState) (hd : ¬ d = RemoteData.LOADING)
    (hpv : ¬ s.prevDelay = some Delay.falsev) :
    gateBody cfg t d s false
      = (⟨false, some Delay.falsev, none, d⟩, quietOut cfg d) := by
  have h2 : ¬ some Delay.falsev = s.prevDelay := fun h => hpv h.symm
  cases d <;> simp_all [gateBody, quietOut]

/-- Down-flag render away from `LOADING`, dependency unchanged: the (absent)
timer state is kept. -/
theorem gateBody_other_keep (cfg : GateConfig) (t : Nat) (d : RemoteData)
    (s : GateState) (hd : ¬ d = RemoteData.LOADING)
    (hpv : s.prevDelay = some Delay.falsev) :
    gateBody cfg t d s false
      = ({ s with showLoading := false, lastData := d }, quietOut cfg d) := by
  cases d <;> simp_all [gateBody, quietOut]

/-- The gate debounce invariant: when the loading flag is down and the timer
state matches the committed delay dependency, a trace whose `LOADING`
stretches all end before their deadlines produces no loading view, and the
flag stays down. -/
theorem gate_no_loading (cfg : GateConfig) :
    ∀ (evs : List (Nat × RemoteData)) (s : GateState),
      s.showLoading = false →
      (s.deadline = none → ¬ s.prevDelay = some (.num cfg.loadingTimeout)) →
      (∀ dl, s.deadline = some dl →
        s.prevDelay = some (.num cfg.loadingTimeout)) →
      okEvents cfg.loadingTimeout s.deadline evs = true →
      ((gateRun cfg s evs).2.all fun o => !isLoadingOut o) = true
  | [], _ => fun _ _ _ _ => by simp [gateRun]
  | (t, d) :: rest, s => fun hs hn hdl hok => by
    rcases hdc : s.deadline with _ | dl
    · -- no timer pending: no fire can occur
      rw [hdc] at hok
      have hn' := hn hdc
      have hstep : gateStep cfg s (t, d) =
          ((gateBody cfg t d s false).1, [(gateBody cfg t d s false).2]) := by
        simp [gateStep, gateRender, hdc, hs]
      by_cases hld : d = RemoteData.LOADING
      · subst hld
        simp only [okEvents, if_pos rfl] at hok
        rw [gateBody_loading_arm cfg t s hn'] at hstep
        simp only [gateRun, hstep, List.all_append, Bool.and_eq_true]
        refine ⟨by decide, ?_⟩
        exact gate_no_loading cfg rest _ rfl (by simp) (fun dl h => rfl) hok
      · simp only [okEvents, if_neg hld] at hok
        by_cases hpv : s.prevDelay = some Delay.falsev
        · rw [gateBody_other_keep cfg t d s hld hpv] at hstep
          simp only [gateRun, hstep, List.all_append, Bool.and_eq_true]
          refine ⟨by simp [quietOut_not_loading], ?_⟩
          exact gate_no_loading cfg rest _ rfl (fun _ => hn') (fun dl h => by
            rw [hdc] at h; cases h) (by simpa [hdc] using hok)
        · rw [gateBody_other_clear cfg t d s hld hpv] at hstep
          simp only [gateRun, hstep, List.all_append, Bool.and_eq_true]
          refine ⟨by simp [quietOut_not_loading], ?_⟩
          exact gate_no_loading cfg rest _ rfl (by simp) (fun dl h => by cases h)
            hok
    · -- timer pending for `dl`; the trace hypothesis gives `t < dl`
      have hpd := hdl dl hdc
      rw [hdc] at hok
      simp only [okEvents, Bool.and_eq_true, decide_eq_true_eq] at hok
      obtain ⟨htlt, hok⟩ := hok
      have hnofire : (decide (dl ≤ t)) = false := by
        simp [Nat.not_le.mpr htlt]
      have hstep : gateStep cfg s (t, d) =
          ((gateBody cfg t d s false).1, [(gateBody cfg t d s false).2]) := by
        simp [gateStep, gateRender, hdc, hnofire, hs]
      by_cases hld : d = RemoteData.LOADING
      · subst hld
        rw [if_pos rfl] at hok
        rw [gateBody_loading_keep cfg t s hpd] at hstep
        simp only [gateRun, hstep, List.all_append, Bool.and_eq_true]
        refine ⟨by decide, ?_⟩
        exact gate_no_loading cfg rest _ rfl
          (fun h => by rw [hdc] at h; cases h)
          (fun dl' h => hpd) (by simpa [hdc] using hok)
      · rw [if_neg hld] at hok
        by_cases hpv : s.prevDelay = some Delay.falsev
        · rw [hpv] at hpd; cases hpd
        · rw [gateBody_other_clear cfg t d s hld hpv] at hstep
          simp only [gateRun, hstep, List.all_append, Bool.and_eq_true]
          refine ⟨by simp [quietOut_not_loading], ?_⟩
          exact gate_no_loading cfg rest _ rfl (by simp) (fun dl' h => by cases h)
            hok

/-- Supplying a fresh promise identity resets the hook to `LOADING`. -/
theorem setPromise_fresh (p : Nat) (s : PromiseState)
    (h : s.watched ≠ some p) :
    setPromise (some p) s = ⟨.LOADING, some p⟩ := by
  unfold setPromise
  rw [if_neg fun hc => h hc.symm]

/-- After supplying a promise, the hook watches exactly that promise. -/
theorem setPromise_watched (p : Nat) (s : PromiseState) :
    (setPromise (some p) s).watched = some p := by
  unfold setPromise
  split
  · next heq => exact heq.symm
  · rfl

/-! ## Claim theorems -/

/-- C1. In `useRemoteLatest`, once the stored slot holds a `Ready` value, a
`NOT_ASKED` or `LOADING` input leaves the exposed output unchanged (the
retained ready value, also along any sequence of such inputs), while a
`Ready` or `Failed` input always replaces the slot with that settled input. -/
theorem useRemoteLatest_retains_ready (shown d : RemoteData)
    (ds : List RemoteData) (hr : isReady shown = true) :
    ((d = RemoteData.NOT_ASKED ∨ d = RemoteData.LOADING) →
      reconcile shown d = shown) ∧
    ((isReady d || isFailure d) = true → reconcile shown d = d) ∧
    ((∀ x ∈ ds, x = RemoteData.NOT_ASKED ∨ x = RemoteData.LOADING) →
      ds.foldl reconcile shown = shown) := by
  obtain ⟨v, rfl⟩ : ∃ v, shown = .ready v := by
    cases shown <;> simp [isReady] at hr ⊢
  refine ⟨?_, ?_, ?_⟩
  · rintro (rfl | rfl) <;> simp [reconcile, isReady, isFailure]
  · intro hd
    cases d <;> simp [reconcile, isReady, isFailure] at hd ⊢
  · exact foldl_reconcile_ready ds v

/-- Witness for C1 at the slot `Ready 0` with inputs `LOADING` and the
sequence `[NOT_ASKED, LOADING]`. -/
theorem useRemoteLatest_retains_ready_witness :
    reconcile (.ready 0) .LOADING = .ready 0 ∧
    [RemoteData.NOT_ASKED, RemoteData.LOADING].foldl reconcile (.ready 0)
      = .ready 0 := by
  have h := useRemoteLatest_retains_ready (.ready 0) .LOADING
    [RemoteData.NOT_ASKED, RemoteData.LOADING] (by decide)
  exact ⟨h.1 (Or.inr rfl), h.2.2 (by decide)⟩

/-- C2. In `usePromise`, when promise `P1` is superseded by `P2` before
settling, `P1`'s settlement leaves the hook state completely unchanged (the
exposed value is still `LOADING` for `P2`, and the drop is silent — the
handler is a total no-op, not an error), while `P2`'s settlement updates the
exposed state to its settled value. -/
theorem usePromise_superseded_settlement_inert (s0 : PromiseState)
    (p1 p2 : Nat) (st1 st2 : Settlement) (hne : p1 ≠ p2) :
    onSettle p1 st1 (setPromise (some p2) (setPromise (some p1) s0))
      = setPromise (some p2) (setPromise (some p1) s0) ∧
    (onSettle p1 st1 (setPromise (some p2) (setPromise (some p1) s0))).data
      = RemoteData.LOADING ∧
    (onSettle p2 st2 (onSettle p1 st1
        (setPromise (some p2) (setPromise (some p1) s0)))).data
      = settleData st2 := by
  have h2 : setPromise (some p2) (setPromise (some p1) s0)
      = ⟨.LOADING, some p2⟩ := by
    refine setPromise_fresh p2 _ ?_
    rw [setPromise_watched]
    simpa using hne
  rw [h2]
  have h3 : onSettle p1 st1 (⟨.LOADING, some p2⟩ : PromiseState)
      = ⟨.LOADING, some p2⟩ := by
    unfold onSettle
    rw [if_neg (by simpa using (hne ∘ Eq.symm))]
  rw [h3]
  refine ⟨rfl, rfl, ?_⟩
  unfold onSettle
  rw [if_pos rfl]

/-- Witness for C2 with promises `0` then `1` and two resolutions. -/
theorem usePromise_superseded_settlement_inert_witness :
    (onSettle 0 (.resolved (.ready 5))
        (setPromise (some 1) (setPromise (some 0) PromiseState.initial))).data
      = RemoteData.LOADING ∧
    (onSettle 1 (.resolved (.ready 6)) (onSettle 0 (.resolved (.ready 5))
        (setPromise (some 1) (setPromise (some 0) PromiseState.initial)))).data
      = .ready 6 := by
  have h := usePromise_superseded_settlement_inert PromiseState.initial 0 1
    (.resolved (.ready 5)) (.resolved (.ready 6)) (by decide)
  exact ⟨h.2.1, h.2.2⟩

/-- C10. When the watched promise resolves, `usePromise` stores the resolved
value verbatim (no `Ready` wrapper exists in the untagged union), so resolving
with a sentinel (`NOT_ASKED`/`LOADING`) or with a failure value exposes that
very state; only a rejection is routed through the failure constructor by
`RemoteData.failWith`. -/
theorem usePromise_stores_resolution_verbatim (s : PromiseState) (p : Nat)
    (v : RemoteData) (e : Nat) (hw : s.watched = some p) :
    (onSettle p (.resolved v) s).data = v ∧
    (onSettle p (.resolved .LOADING) s).data = .LOADING ∧
    (onSettle p (.resolved .NOT_ASKED) s).data = .NOT_ASKED ∧
    (onSettle p (.resolved (.failure e)) s).data = .failure e ∧
    (onSettle p (.rejected e) s).data = .failure e := by
  simp [onSettle, settleData, hw]

/-- Witness for C10 at a hook watching promise `3`. -/
theorem usePromise_stores_resolution_verbatim_witness :
    (onSettle 3 (.resolved (.ready 9))
      (⟨.LOADING, some 3⟩ : PromiseState)).data = .ready 9 ∧
    (onSettle 3 (.resolved .LOADING)
      (⟨.LOADING, some 3⟩ : PromiseState)).data = .LOADING := by
  have h := usePromise_stores_resolution_verbatim ⟨.LOADING, some 3⟩ 3
    (.ready 9) 4 rfl
  exact ⟨h.1, h.2.1⟩

/-- C9. The deregister closure for a token is idempotent: its first call
removes exactly that token, and calling it again leaves the whole registry
state — membership set and aggregate boolean — unchanged (a total no-op,
never an error). -/
theorem activityRegistry_deregister_idempotent (s : RegistryState) (id : Nat) :
    (deregStep id s).registered = s.registered.erase id ∧
    deregStep id (deregStep id s) = deregStep id s := by
  refine ⟨rfl, ?_⟩
  simp only [deregStep, Finset.erase_idem]
  by_cases he : s.registered.erase id = ∅ <;> simp [he]

/-- C3. The Activity Registry's aggregate boolean is true iff the token set
is non-empty, along every serial sequence of register/deregister operations;
in particular registering `n` times and deregistering the first `n - 1`
tokens leaves the aggregate true and the `n`-th deregistration flips it to
false. -/
theorem activityRegistry_aggregate_iff_nonempty :
    (∀ ops : List RegOp,
      (runOps ops).isIndicating = true ↔ (runOps ops).registered ≠ ∅) ∧
    (∀ n : Nat, 0 < n →
      ((List.range (n - 1)).foldl (fun s id => deregStep id s)
          (regStep^[n] RegistryState.initial)).isIndicating = true ∧
      (deregStep (n - 1) ((List.range (n - 1)).foldl
          (fun s id => deregStep id s)
          (regStep^[n] RegistryState.initial))).isIndicating = false) := by
  constructor
  · intro ops
    exact regInv_foldl ops RegistryState.initial (by simp [regInv, RegistryState.initial])
  · intro n hn
    have hreg : ((List.range (n - 1)).foldl (fun s id => deregStep id s)
        (regStep^[n] RegistryState.initial)).registered = {n - 1} := by
      rw [foldl_dereg_registered, (regStep_iterate n).1, toFinset_list_range,
        range_sdiff_pred n hn]
    have hinv := regInv_foldl_dereg (List.range (n - 1)) _ (regInv_iterate n)
    refine ⟨hinv.mpr (by rw [hreg]; simp), ?_⟩
    have hd : ∀ s : RegistryState, (deregStep (n - 1) s).isIndicating
        = if s.registered.erase (n - 1) = ∅ then false else s.isIndicating :=
      fun s => rfl
    rw [hd, hreg, if_pos (by simp)]

/-- Witness for C3 with three registrations and three deregistrations. -/
theorem activityRegistry_aggregate_iff_nonempty_witness :
    ((List.range 2).foldl (fun s id => deregStep id s)
        (regStep^[3] RegistryState.initial)).isIndicating = true ∧
    (deregStep 2 ((List.range 2).foldl (fun s id => deregStep id s)
        (regStep^[3] RegistryState.initial))).isIndicating = false := by
  have h := activityRegistry_aggregate_iff_nonempty.2 3 (by decide)
  exact h

/-- Counterexample to C5. Scheduling `useTimeout` with delay 100 at time 0
and re-invoking it with the same delay 100 at time 50 does not reschedule:
the effect keyed on `[delay]` sees an unchanged dependency and is skipped, so
the callback fires at time 100 (first call + delay), not at time 150 as the
claim states. -/
theorem useTimeout_same_delay_counterexample :
    (timeoutFire (timeoutRender 50 7 (.num 100)
        (timeoutRender 0 7 (.num 100) TimeoutState.initial))).2
      = some (100, 7) ∧
    (timeoutFire (timeoutRender 50 7 (.num 100)
        (timeoutRender 0 7 (.num 100) TimeoutState.initial))).2
      ≠ some (150, 7) := by
  decide

/-- C5 (amended). Re-invoking `useTimeout` with the same numeric delay `D`
before the callback fires leaves the instance — and hence the pending fire —
entirely unchanged: the callback fires exactly once, at time `D` counted from
the first call, not at the second call plus `D`; only a changed delay value
cancels and reschedules. -/
theorem useTimeout_same_delay_no_reschedule (D T cb : Nat) (hT : T < D) :
    timeoutRender T cb (.num D) (timeoutRender 0 cb (.num D)
        TimeoutState.initial)
      = timeoutRender 0 cb (.num D) TimeoutState.initial ∧
    (timeoutRender T cb (.num D) (timeoutRender 0 cb (.num D)
        TimeoutState.initial)).deadline = some D ∧
    (timeoutFire (timeoutRender T cb (.num D) (timeoutRender 0 cb (.num D)
        TimeoutState.initial))).2 = some (D, cb) ∧
    (timeoutFire (timeoutFire (timeoutRender T cb (.num D)
        (timeoutRender 0 cb (.num D) TimeoutState.initial))).1).2 = none := by
  have h1 : timeoutRender 0 cb (.num D) TimeoutState.initial
      = ⟨cb, some cb, some (.num D), some D⟩ := by
    simp [timeoutRender, TimeoutState.initial]
  have h2 : timeoutRender T cb (.num D)
      (⟨cb, some cb, some (.num D), some D⟩ : TimeoutState)
      = ⟨cb, some cb, some (.num D), some D⟩ := by
    simp [timeoutRender]
  rw [h1, h2]
  exact ⟨rfl, rfl, rfl, rfl⟩

/-- Witness for C5 (amended) at delay 100, re-invocation at time 50. -/
theorem useTimeout_same_delay_no_reschedule_witness :
    (50 < 100) ∧
    (timeoutFire (timeoutRender 50 7 (.num 100) (timeoutRender 0 7 (.num 100)
        TimeoutState.initial))).2 = some (100, 7) :=
  ⟨by decide, (useTimeout_same_delay_no_reschedule 100 50 7 (by decide)).2.2.1⟩

/-- C6. Re-invoking `useTimeout` with the same delay but a different callback
reference neither cancels nor reschedules the pending fire (the deadline is
untouched), yet the fire invokes the most recently supplied callback, because
the fire function reads the `currentCallback` ref at fire time. -/
theorem useTimeout_callback_change_no_reschedule (D T cb1 cb2 : Nat)
    (hcb : cb1 ≠ cb2) (hT : T < D) :
    (timeoutRender T cb2 (.num D) (timeoutRender 0 cb1 (.num D)
        TimeoutState.initial)).deadline
      = (timeoutRender 0 cb1 (.num D) TimeoutState.initial).deadline ∧
    (timeoutRender T cb2 (.num D) (timeoutRender 0 cb1 (.num D)
        TimeoutState.initial)).deadline = some D ∧
    (timeoutRender T cb2 (.num D) (timeoutRender 0 cb1 (.num D)
        TimeoutState.initial)).cbRef = cb2 ∧
    (timeoutFire (timeoutRender T cb2 (.num D) (timeoutRender 0 cb1 (.num D)
        TimeoutState.initial))).2 = some (D, cb2) := by
  have h1 : timeoutRender 0 cb1 (.num D) TimeoutState.initial
      = ⟨cb1, some cb1, some (.num D), some D⟩ := by
    simp [timeoutRender, TimeoutState.initial]
  have h2 : timeoutRender T cb2 (.num D)
      (⟨cb1, some cb1, some (.num D), some D⟩ : TimeoutState)
      = ⟨cb2, some cb2, some (.num D), some D⟩ := by
    simp [timeoutRender, Ne.symm hcb]
  rw [h1, h2]
  exact ⟨rfl, rfl, rfl, rfl⟩

/-- Witness for C6 at delay 100, callback change from 7 to 8 at time 50. -/
theorem useTimeout_callback_change_no_reschedule_witness :
    (7 ≠ 8) ∧ (50 < 100) ∧
    (timeoutFire (timeoutRender 50 8 (.num 100) (timeoutRender 0 7 (.num 100)
        TimeoutState.initial))).2 = some (100, 8) :=
  ⟨by decide, by decide,
    (useTimeout_callback_change_no_reschedule 100 50 7 8 (by decide)
      (by decide)).2.2.2⟩

/-- C8. `RemoteSuspense` dispatches on the input: `NOT_ASKED` renders
nothing; `Failed(error)` renders the configured failure view, invoking it
with the carried error when configured as a function and rendering it as-is
when it is a static node; `Ready(value)` invokes the content producer with
the value and renders its result. -/
theorem remoteSuspense_dispatch (cfg : GateConfig) (s : GateState)
    (t e v n : Nat) (f : Nat → Nat) :
    (gateRender cfg t .NOT_ASKED s).2 = .empty ∧
    (gateRender { cfg with failureFallback := .func f } t (.failure e) s).2
      = .failed (f e) ∧
    (gateRender { cfg with failureFallback := .node n } t (.failure e) s).2
      = .failed n ∧
    (gateRender cfg t (.ready v) s).2 = .content (cfg.children v) := by
  refine ⟨?_, ?_, ?_, ?_⟩ <;> simp [gateRender, gateBody]

/-- C7. On every input history whose `LOADING` stretches are each left before
`loadingTimeout` has elapsed continuously, `RemoteSuspense` never renders the
loading view at any point; while `LOADING` with the flag down it renders
nothing; and the loading-visibility flag is cleared synchronously by any
render that observes the state to no longer be `LOADING`. -/
theorem remoteSuspense_short_pending_no_loading (cfg : GateConfig)
    (evs : List (Nat × RemoteData))
    (hok : okEvents cfg.loadingTimeout none evs = true) :
    (((gateRun cfg GateState.initial evs).2.all fun o => !isLoadingOut o)
      = true) ∧
    (∀ (s : GateState) (t : Nat), s.showLoading = false →
      (gateRender cfg t .LOADING s).2 = .empty) ∧
    (∀ (s : GateState) (t : Nat) (d : RemoteData), ¬ d = RemoteData.LOADING →
      (gateRender cfg t d s).1.showLoading = false) := by
  refine ⟨?_, ?_, ?_⟩
  · exact gate_no_loading cfg evs GateState.initial rfl
      (fun _ => by simp [GateState.initial]) (fun dl h => by cases h) hok
  · intro s t hs
    rw [gateRender, hs]
    by_cases hpd : s.prevDelay = some (.num cfg.loadingTimeout)
    · rw [gateBody_loading_keep cfg t s hpd]
    · rw [gateBody_loading_arm cfg t s hpd]
  · intro s t d hd
    rw [gateRender]
    rcases hsl : s.showLoading
    · by_cases hpv : s.prevDelay = some Delay.falsev
      · rw [gateBody_other_keep cfg t d s hd hpv]
      · rw [gateBody_other_clear cfg t d s hd hpv]
    · unfold gateBody
      cases d <;> simp_all [isLoadingOut] <;> split <;> rfl

/-- Down-flag indicator render with activity and an armed timer: the effect
dependency is unchanged, so the timer is untouched and nothing registers. -/
theorem aiRender_active_keep (T t : Nat) (s : AIState)
    (hsf : s.showFlag = false) (hpd : s.prevDelay = some (.num T)) :
    aiRender T t true s
      = (⟨false, s.registered, s.prevDelay, s.deadline, true⟩, []) := by
  rw [aiRender, hsf]
  simp [aiBody, hpd, hsf]

/-- Down-flag indicator render entering activity: the effect dependency
changed, so a timer is armed for the render time plus the threshold, and
nothing registers yet. -/
theorem aiRender_active_arm (T t : Nat) (s : AIState)
    (hsf : s.showFlag = false) (hpd : ¬ s.prevDelay = some (.num T)) :
    aiRender T t true s
      = (⟨false, s.registered, some (.num T), some (t + T), true⟩, []) := by
  rw [aiRender, hsf]
  have h2 : ¬ some (Delay.num T) = s.prevDelay := fun h => hpd h.symm
  simp [aiBody, h2, hsf]

/-- Down-flag indicator render without activity, dependency changed: any
pending timer is cleared and nothing registers. -/
theorem aiRender_idle_clear (T t : Nat) (s : AIState)
    (hsf : s.showFlag = false) (hpv : ¬ s.prevDelay = some Delay.falsev) :
    aiRender T t false s
      = (⟨false, s.registered, some Delay.falsev, none, false⟩, []) := by
  rw [aiRender, hsf]
  have h2 : ¬ some Delay.falsev = s.prevDelay := fun h => hpv h.symm
  simp [aiBody, h2, hsf]

/-- Down-flag indicator render without activity, dependency unchanged: the
(absent) timer state is kept and nothing registers. -/
theorem aiRender_idle_keep (T t : Nat) (s : AIState)
    (hsf : s.showFlag = false) (hpv : s.prevDelay = some Delay.falsev) :
    aiRender T t false s
      = (⟨false, s.registered, s.prevDelay, s.deadline, false⟩, []) := by
  rw [aiRender, hsf]
  simp [aiBody, hpv, hsf]

/-- The indicator debounce invariant: when the `show` flag is down, no
registration is live and the timer state matches the committed delay
dependency, a trace whose activity stretches all end before their deadlines
produces no registry traffic at all, in particular no registration. -/
theorem ai_no_register (T : Nat) :
    ∀ (evs : List (Nat × Bool)) (s : AIState),
      s.showFlag = false →
      (s.deadline = none → ¬ s.prevDelay = some (.num T)) →
      (∀ dl, s.deadline = some dl → s.prevDelay = some (.num T)) →
      aiOk T s.deadline evs = true →
      (aiRun T s evs).2 = []
  | [], _ => fun _ _ _ _ => rfl
  | (t, h) :: rest, s => fun hs hn hdl hok => by
    rcases hdc : s.deadline with _ | dl
    · rw [hdc] at hok
      have hn' := hn hdc
      have hstep : aiStep T s (t, h) = aiRender T t h s := by
        simp [aiStep, hdc]
      cases h with
      | true =>
        simp only [aiOk, if_pos rfl] at hok
        rw [aiRender_active_arm T t s hs hn'] at hstep
        simp only [aiRun, hstep, List.nil_append, List.append_nil]
        exact ai_no_register T rest _ rfl (by simp) (fun dl h => rfl) hok
      | false =>
        simp only [aiOk, if_neg Bool.false_ne_true] at hok
        by_cases hpv : s.prevDelay = some Delay.falsev
        · rw [aiRender_idle_keep T t s hs hpv] at hstep
          simp only [aiRun, hstep, List.nil_append, List.append_nil]
          exact ai_no_register T rest _ rfl (fun _ => hn') (fun dl h => by
            rw [hdc] at h; cases h) (by simpa [hdc] using hok)
        · rw [aiRender_idle_clear T t s hs hpv] at hstep
          simp only [aiRun, hstep, List.nil_append, List.append_nil]
          exact ai_no_register T rest _ rfl (by simp) (fun dl h => by cases h)
            hok
    · have hpd := hdl dl hdc
      rw [hdc] at hok
      simp only [aiOk, Bool.and_eq_true, decide_eq_true_eq] at hok
      obtain ⟨htlt, hok⟩ := hok
      have hnofire : (decide (dl ≤ t)) = false := by
        simp [Nat.not_le.mpr htlt]
      have hstep : aiStep T s (t, h) = aiRender T t h s := by
        simp [aiStep, hdc, hnofire]
      cases h with
      | true =>
        rw [if_pos rfl] at hok
        rw [aiRender_active_keep T t s hs hpd] at hstep
        simp only [aiRun, hstep, List.nil_append, List.append_nil]
        exact ai_no_register T rest _ rfl
          (fun h => by rw [hdc] at h; cases h)
          (fun dl' h => hpd) (by simpa [hdc] using hok)
      | false =>
        rw [if_neg Bool.false_ne_true] at hok
        rw [aiRender_idle_clear T t s hs
          (fun hc => by rw [hc] at hpd; cases hpd)] at hstep
        simp only [aiRun, hstep, List.nil_append, List.append_nil]
        exact ai_no_register T rest _ rfl (by simp) (fun dl' h => by cases h)
          hok

/-- With `hideIndicator` set, a `useRemoteLatest` instance whose indicator is
idle keeps it idle and never talks to the registry. -/
theorem latest_hide_no_events :
    ∀ (evs : List (Nat × RemoteData)) (opts : LatestOpts) (s : LatestState),
      opts.hideIndicator = true →
      s.ai.showFlag = false → s.ai.registered = false →
      s.ai.deadline = none →
      (latestRun opts s evs).2.2 = []
  | [], _, _ => fun _ _ _ _ => rfl
  | (t, d) :: rest, opts, s => fun hh hs hr hd => by
    have hstep : latestStep opts s (t, d)
        = (let r := latestRender opts t d ⟨s.shown, s.ai⟩
           (r.1, r.2.1, r.2.2)) := by
      simp [latestStep, hd]
    have hbody : ∀ (sh : Option RemoteData),
        (latestRender opts t d ⟨sh, s.ai⟩).2.2 = [] ∧
        (latestRender opts t d ⟨sh, s.ai⟩).1.ai.showFlag = false ∧
        (latestRender opts t d ⟨sh, s.ai⟩).1.ai.registered = false ∧
        (latestRender opts t d ⟨sh, s.ai⟩).1.ai.deadline = none := by
      intro sh
      have hact : ((reconcile ((⟨sh, s.ai⟩ : LatestState).shown.getD d) d ≠ d
          : Bool) && !opts.hideIndicator) = false := by
        rw [hh]
        simp
      rw [latestRender]
      simp only [hact]
      by_cases hpv : s.ai.prevDelay = some Delay.falsev
      · rw [aiRender_idle_keep _ t s.ai hs hpv]
        exact ⟨rfl, rfl, hr, hd⟩
      · rw [aiRender_idle_clear _ t s.ai hs hpv]
        exact ⟨rfl, rfl, hr, rfl⟩
    simp only [latestRun, hstep]
    rw [(hbody s.shown).1, List.nil_append]
    exact latest_hide_no_events rest opts _ hh (hbody s.shown).2.1
      (hbody s.shown).2.2.1 (hbody s.shown).2.2.2

/-- C4. The staleness report is debounced on the way up and immediate on the
way down: (1) if every activity stretch ends before the threshold has held
continuously, the indicator never registers (no registry traffic at all);
(2) a render observing the condition false immediately deregisters any live
registration and clears any pending timer, at that very render time;
(3) `hideIndicator` suppresses registration entirely; (4) in the reference
scenario — `Ready(1)`, `LOADING` at 10 held past the default 250 threshold,
`Ready(2)` at 410 — the registry is incremented exactly once at 260 and
decremented exactly once at 410, with the stale `Ready(1)` exposed throughout
the pending interval; (5) the same holds with the threshold overridden to
100, registering at 110. -/
theorem useActivityIndicator_debounced_registration :
    (∀ (T : Nat) (evs : List (Nat × Bool)), aiOk T none evs = true →
      (aiRun T AIState.initial evs).2 = []) ∧
    (∀ (T t : Nat) (s : AIState), s.registered = s.showFlag →
      (s.prevDelay = some Delay.falsev → s.deadline = none) →
      (aiRender T t false s).1.registered = false ∧
      (aiRender T t false s).1.deadline = none ∧
      (s.showFlag = true → (aiRender T t false s).2 = [(t, false)])) ∧
    (∀ (opts : LatestOpts) (evs : List (Nat × RemoteData)),
      opts.hideIndicator = true →
      (latestRun opts LatestState.initial evs).2.2 = []) ∧
    (latestRun ⟨false, none⟩ LatestState.initial
        [(0, .ready 1), (10, .LOADING), (410, .ready 2)]).2
      = ([.ready 1, .ready 1, .ready 2], [(260, true), (410, false)]) ∧
    (latestRun ⟨false, some 100⟩ LatestState.initial
        [(0, .ready 1), (10, .LOADING), (410, .ready 2)]).2
      = ([.ready 1, .ready 1, .ready 2], [(110, true), (410, false)]) := by
  refine ⟨?_, ?_, ?_, by decide, by decide⟩
  · intro T evs hok
    exact ai_no_register T evs AIState.initial rfl
      (fun _ => by simp [AIState.initial])
      (fun dl h => by simp [AIState.initial] at h) hok
  · intro T t s hreg himp
    rcases hsf : s.showFlag
    · rw [hsf] at hreg
      by_cases hpv : s.prevDelay = some Delay.falsev
      · rw [aiRender_idle_keep T t s hsf hpv]
        exact ⟨hreg, himp hpv, fun hc => by simp at hc⟩
      · rw [aiRender_idle_clear T t s hsf hpv]
        exact ⟨hreg, rfl, fun hc => by simp at hc⟩
    · rw [hsf] at hreg
      have hbody : aiRender T t false s
          = (⟨false, false,
              (if some Delay.falsev ≠ s.prevDelay then some Delay.falsev
                else s.prevDelay),
              (if some Delay.falsev ≠ s.prevDelay then none else s.deadline),
              false⟩, [(t, false)]) := by
        rw [aiRender, hsf]
        simp [aiBody, hsf, hreg]
        split <;> simp
      rw [hbody]
      refine ⟨rfl, ?_, fun _ => rfl⟩
      by_cases hpv : s.prevDelay = some Delay.falsev
      · simp [hpv, himp hpv]
      · have h2 : ¬ some Delay.falsev = s.prevDelay := fun hc => hpv hc.symm
        simp [h2]
  · intro opts evs hh
    exact latest_hide_no_events evs opts LatestState.initial hh rfl rfl rfl

/-- Witness for C4: a short activity stretch registers nothing; a live
registration at threshold 250 is withdrawn at the render time 5 of the first
inactive render; `hideIndicator` silences the reference scenario. -/
theorem useActivityIndicator_debounced_registration_witness :
    (aiRun 250 AIState.initial [(0, true), (100, false)]).2 = [] ∧
    (aiRender 250 5 false
      (⟨true, true, some (.num 250), some 260, true⟩ : AIState)).1.registered
      = false ∧
    (aiRender 250 5 false
      (⟨true, true, some (.num 250), some 260, true⟩ : AIState)).2
      = [(5, false)] ∧
    (latestRun ⟨true, none⟩ LatestState.initial
        [(0, .ready 1), (10, .LOADING), (410, .ready 2)]).2.2 = [] := by
  have h := useActivityIndicator_debounced_registration
  exact ⟨h.1 250 [(0, true), (100, false)] (by decide),
    (h.2.1 250 5 ⟨true, true, some (.num 250), some 260, true⟩ rfl
      (by decide)).1,
    (h.2.1 250 5 ⟨true, true, some (.num 250), some 260, true⟩ rfl
      (by decide)).2.2 rfl,
    h.2.2.1 ⟨true, none⟩ [(0, .ready 1), (10, .LOADING), (410, .ready 2)] rfl⟩

/-- Witness for C7: `NOT_ASKED`, then `LOADING` entered at 10 and left at 60,
with `loadingTimeout` 150 — the loading view never appears, and a non-loading
render clears the flag. -/
theorem remoteSuspense_short_pending_no_loading_witness :
    okEvents 150 none [(0, .NOT_ASKED), (10, .LOADING), (60, .ready 5)]
      = true ∧
    ((gateRun ⟨150, 99, .node 77, fun v => v + 1000⟩ GateState.initial
        [(0, .NOT_ASKED), (10, .LOADING), (60, .ready 5)]).2.all
      fun o => !isLoadingOut o) = true ∧
    (gateRender ⟨150, 99, .node 77, fun v => v + 1000⟩ 60 (.ready 5)
        ⟨true, some (.num 150), none, .LOADING⟩).1.showLoading = false := by
  have h := remoteSuspense_short_pending_no_loading
    ⟨150, 99, .node 77, fun v => v + 1000⟩
    [(0, .NOT_ASKED), (10, .LOADING), (60, .ready 5)] (by decide)
  exact ⟨by decide, h.1, h.2.2 ⟨true, some (.num 150), none, .LOADING⟩ 60
    (.ready 5) (by decide)⟩

end TsRemoteDataReact
